import Mathlib

/-!
Shallow embedding of the TeleAI-Poster application core
(`config.py`, `telegram_utils.py`, `main.py`) and proofs about it.

Python strings are modelled as Lean `String`s viewed as their lists of
characters (Python strings are sequences of code points, so slicing and
length are `List.take` and `List.length` on `String.data`).  GUI widgets
are modelled as the record `UIState` of their textual contents and
enabled flags; a dialog box is a value describing the dialog that the
handler pops up; starting a worker thread is modelled as the handler
returning the request record the thread would be constructed with.
-/

namespace TeleAIPoster

/-- Python `s.strip()`: drop whitespace from both ends (by code point). -/
def pyStrip (s : String) : String :=
  String.mk (((s.data.dropWhile Char.isWhitespace).reverse.dropWhile Char.isWhitespace).reverse)

/-- Python `s[:n]`: the first `n` code points of `s`. -/
def pySlice (s : String) (n : Nat) : String :=
  String.mk (s.data.take n)

/-- Python `len(s)`: the number of code points. -/
def pyLen (s : String) : Nat :=
  s.data.length

/-- Python `needle in hay` on strings: contiguous substring containment. -/
def pyContains (needle hay : String) : Bool :=
  decide (needle.data <:+: hay.data)

/-! ### config.py -/

/-- Constant `config.DEFAULT_AI_PROMPT`. -/
def DEFAULT_AI_PROMPT : String :=
  "Generate a concise and engaging social media post about recent advancements in artificial intelligence."

/-- Constant `config.TELEGRAM_MAX_MESSAGE_LENGTH`. -/
def TELEGRAM_MAX_MESSAGE_LENGTH : Nat := 4096

/-- Constant `config.DEFAULT_AI_MODEL`. -/
def DEFAULT_AI_MODEL : String := "gpt-3.5-turbo"

/-! ### The environment (.env file loaded by `load_dotenv` / read by `os.getenv`) -/

/-- The process environment: a partial map from variable names to values.
`none` models an unset variable (missing `.env` file or absent key). -/
def Env : Type := String → Option String

/-- Python `os.getenv(key, default)`. -/
def getenv (env : Env) (key default : String) : String :=
  (env key).getD default

/-! ### UI state (`TelegramAIPoster` widgets) -/

/-- The textual contents and enabled flags of the widgets of the main
window that the handlers read and write. `targetDisplay` models the
target label: `some gid` after `update_target_display` with a non-blank
group id, `none` for the Not Set rendering (the surrounding HTML markup
is elided). `currentTab` is the index of the selected tab (0 = Main,
1 = Settings). -/
structure UIState where
  promptInput : String
  contentPreview : String
  aiApiKeyInput : String
  telegramBotTokenInput : String
  groupIdInput : String
  aiModelCombo : String
  statusLabel : String
  targetDisplay : Option String
  currentTab : Nat
  generateEnabled : Bool
  postEnabled : Bool
  deriving Repr, DecidableEq

/-- The four persisted configuration values as a record (the spec's
`Settings`): projection of the UI fields that hold them. -/
structure Settings where
  apiKey : String
  botToken : String
  channelId : String
  modelName : String
  deriving Repr, DecidableEq

/-- Read the Settings value currently held by the UI fields. -/
def settingsOf (st : UIState) : Settings :=
  { apiKey := st.aiApiKeyInput
    botToken := st.telegramBotTokenInput
    channelId := st.groupIdInput
    modelName := st.aiModelCombo }

/-! ### Config store handlers (`main.py`) -/

/-- Handler `TelegramAIPoster.update_target_display`: shows the stripped group id
when non-blank, otherwise the Not Set rendering. -/
def update_target_display (st : UIState) : UIState :=
  let group_id := pyStrip st.groupIdInput
  if group_id ≠ "" then
    { st with targetDisplay := some group_id }
  else
    { st with targetDisplay := none }

/-- Handler `TelegramAIPoster.load_settings`: fills the three credential fields
from the environment (each key defaulting to the empty string) and
refreshes the target display. No other field — in particular not the
model selector — is touched. -/
def load_settings (env : Env) (st : UIState) : UIState :=
  update_target_display
    { st with
      aiApiKeyInput := getenv env "GEMINI_API_KEY" ""
      telegramBotTokenInput := getenv env "TELEGRAM_BOT_TOKEN" ""
      groupIdInput := getenv env "TELEGRAM_GROUP_ID" "" }

/-- A dialog box popped up by a handler. -/
inductive Dialog where
  | warning (title text : String)
  | critical (title text : String)
  | information (title text : String)
  deriving Repr, DecidableEq

/-- Handler `TelegramAIPoster.save_settings`: refreshes the target display and
pops an information box. It writes nothing to the environment or to any
file (the source comments that persistence requires editing `.env` by
hand), so it has no `Env` output. -/
def save_settings (st : UIState) : UIState × Dialog :=
  (update_target_display st,
   Dialog.information "Settings Saved"
     "Settings updated in UI. For persistence, manually update your .env file.")

/-! ### Generation handler (`main.py`) -/

/-- The arguments an `AiWorker` thread is constructed with. -/
structure GenRequest where
  prompt : String
  apiKey : String
  model : String
  deriving Repr, DecidableEq

/-- What `generate_content` did: resulting UI state, the validation
dialog popped (if any), and the worker request dispatched (if any). -/
structure GenOutcome where
  ui : UIState
  warningDialog : Option Dialog
  dispatched : Option GenRequest
  deriving Repr, DecidableEq

/-- Handler `TelegramAIPoster.generate_content`: validates the stripped prompt
and API key; on success disables both buttons, sets the busy status and
starts an `AiWorker` with the prompt, the key and the selected model. -/
def generate_content (st : UIState) : GenOutcome :=
  let prompt := pyStrip st.promptInput
  if prompt = "" then
    { ui := st
      warningDialog := some (Dialog.warning "Input Error" "Please enter a prompt for the AI.")
      dispatched := none }
  else
    let ai_api_key := pyStrip st.aiApiKeyInput
    if ai_api_key = "" then
      { ui := { st with currentTab := 1 }
        warningDialog := some (Dialog.warning "API Key Missing"
          "Please enter your Google Gemini API Key in the Settings tab.")
        dispatched := none }
    else
      let selected_model := st.aiModelCombo
      { ui := { st with
          statusLabel := "Generating AI content... Please wait."
          generateEnabled := false
          postEnabled := false }
        warningDialog := none
        dispatched := some { prompt := prompt, apiKey := ai_api_key, model := selected_model } }

/-- What `on_ai_content_generated` did: resulting UI state and whether
the critical error dialog was shown. -/
structure AiDoneOutcome where
  ui : UIState
  errorDialog : Option Dialog
  deriving Repr, DecidableEq

/-- Callback `TelegramAIPoster.on_ai_content_generated`: puts the result into the
preview, re-enables both buttons, and pops a critical dialog exactly when
the literal substring Error-colon occurs in the result. -/
def on_ai_content_generated (st : UIState) (result : String) : AiDoneOutcome :=
  let st1 := { st with
    contentPreview := result
    statusLabel := "AI content generated. Review and post!"
    generateEnabled := true
    postEnabled := true }
  if pyContains "Error:" result then
    { ui := st1, errorDialog := some (Dialog.critical "AI Generation Error" result) }
  else
    { ui := st1, errorDialog := none }

/-! ### Posting handler (`main.py`) -/

/-- The arguments a `TelegramWorker` thread is constructed with. -/
structure PublishRequest where
  botToken : String
  chatId : String
  message : String
  deriving Repr, DecidableEq

/-- What `post_content` did: resulting UI state, the validation dialog
popped (if any), whether the too-long yes/no confirmation was shown, and
the worker request dispatched (if any). -/
structure PostOutcome where
  ui : UIState
  warningDialog : Option Dialog
  confirmAsked : Bool
  dispatched : Option PublishRequest
  deriving Repr, DecidableEq

/-- Handler `TelegramAIPoster.post_content`: validates stripped content, group id
and bot token in that order; if the content exceeds
`TELEGRAM_MAX_MESSAGE_LENGTH` it asks a yes/no confirmation (`reply` is
the answer the user would give, read only when the question is shown):
No aborts, Yes truncates to the first `TELEGRAM_MAX_MESSAGE_LENGTH`
characters. It then disables both buttons, sets the busy status and
starts a `TelegramWorker`. -/
def post_content (st : UIState) (reply : Bool) : PostOutcome :=
  let content := pyStrip st.contentPreview
  let group_id := pyStrip st.groupIdInput
  let bot_token := pyStrip st.telegramBotTokenInput
  if content = "" then
    { ui := st
      warningDialog := some (Dialog.warning "Input Error"
        "No content to post. Please generate or type content.")
      confirmAsked := false
      dispatched := none }
  else if group_id = "" then
    { ui := { st with currentTab := 1 }
      warningDialog := some (Dialog.warning "Configuration Error"
        "Please enter the Telegram Group ID in the Settings tab.")
      confirmAsked := false
      dispatched := none }
  else if bot_token = "" then
    { ui := { st with currentTab := 1 }
      warningDialog := some (Dialog.warning "Configuration Error"
        "Please enter your Telegram Bot Token in the Settings tab.")
      confirmAsked := false
      dispatched := none }
  else if pyLen content > TELEGRAM_MAX_MESSAGE_LENGTH then
    if reply = false then
      { ui := { st with statusLabel := "Posting cancelled due to message length." }
        warningDialog := none
        confirmAsked := true
        dispatched := none }
    else
      { ui := { st with
          statusLabel := "Posting to Telegram... Please wait."
          generateEnabled := false
          postEnabled := false }
        warningDialog := none
        confirmAsked := true
        dispatched := some { botToken := bot_token, chatId := group_id,
                             message := pySlice content TELEGRAM_MAX_MESSAGE_LENGTH } }
  else
    { ui := { st with
        statusLabel := "Posting to Telegram... Please wait."
        generateEnabled := false
        postEnabled := false }
      warningDialog := none
      confirmAsked := false
      dispatched := some { botToken := bot_token, chatId := group_id, message := content } }

/-- What `on_telegram_post_finished` did: resulting UI state and the
dialog shown. -/
structure PostDoneOutcome where
  ui : UIState
  dialog : Dialog
  deriving Repr, DecidableEq

/-- Callback `TelegramAIPoster.on_telegram_post_finished`: on success pops an
information box, sets the success status, clears the preview; on failure
pops a critical box and sets the error status. Both branches re-enable
both buttons. -/
def on_telegram_post_finished (st : UIState) (success : Bool) (message : String) :
    PostDoneOutcome :=
  if success then
    { ui := { st with
        statusLabel := "Content posted successfully!"
        contentPreview := ""
        generateEnabled := true
        postEnabled := true }
      dialog := Dialog.information "Success" message }
  else
    { ui := { st with
        statusLabel := "Error posting: " ++ message
        generateEnabled := true
        postEnabled := true }
      dialog := Dialog.critical "Posting Error" message }

/-! ### telegram_utils.py -/

/-- The exceptions `bot.send_message` can raise, as the except clauses of
`send_telegram_message` distinguish them. `telegramError` stands for a
`TelegramError` that is not a `NetworkError`; `networkError` is matched
by both its own clause and the `TelegramError` clause, since in the
library `NetworkError` is a subclass of `TelegramError`. `otherExn` is
any exception matching none of the three named classes. -/
inductive TgExn where
  | httpStatusError (status : Nat)
  | networkError
  | telegramError
  | otherExn
  deriving Repr, DecidableEq

/-- Whether the exception matches the `except HTTPStatusError` clause. -/
def matchesHTTPStatusError : TgExn → Bool
  | TgExn.httpStatusError _ => true
  | _ => false

/-- Whether the exception matches the `except NetworkError` clause. -/
def matchesNetworkError : TgExn → Bool
  | TgExn.networkError => true
  | _ => false

/-- Whether the exception matches the `except TelegramError` clause
(`NetworkError` is a subclass of `TelegramError`). -/
def matchesTelegramError : TgExn → Bool
  | TgExn.networkError => true
  | TgExn.telegramError => true
  | _ => false

/-- The outcome of the one `bot.send_message` network call: returns
normally or raises an exception. -/
inductive NetOutcome where
  | success
  | raised (e : TgExn)
  deriving Repr, DecidableEq

/-- The five diagnostic branches of `send_telegram_message`: the four
except clauses, with the `HTTPStatusError` clause split by its
`status_code == 401` test. -/
inductive ExnBranch where
  | invalidToken401
  | httpStatusOther (status : Nat)
  | networkBranch
  | telegramApiBranch
  | unexpectedBranch
  deriving Repr, DecidableEq

/-- The body of the `except HTTPStatusError` clause: branches on
`e.response.status_code == 401`. -/
def handleHTTPStatusError : TgExn → ExnBranch
  | TgExn.httpStatusError status =>
      if status = 401 then ExnBranch.invalidToken401 else ExnBranch.httpStatusOther status
  | _ => ExnBranch.unexpectedBranch

/-- The except-clause chain of `send_telegram_message`: the clauses are
tried top to bottom and the first whose class matches handles the
exception. -/
def handleExn (e : TgExn) : ExnBranch :=
  if matchesHTTPStatusError e then handleHTTPStatusError e
  else if matchesNetworkError e then ExnBranch.networkBranch
  else if matchesTelegramError e then ExnBranch.telegramApiBranch
  else ExnBranch.unexpectedBranch

/-- The failure categories of the spec's `PublishResult`. -/
inductive FailureCategory where
  | unauthorized
  | network
  | protocolError
  | unknown
  deriving Repr, DecidableEq

/-- The category each diagnostic branch of the source reports:
the 401 branch is the auth rejection, the network clause the transport
failure, the other-HTTP-status and Telegram-API clauses are API-level
error responses, the bare except clause the unexpected case. -/
def branchCategory : ExnBranch → FailureCategory
  | ExnBranch.invalidToken401 => FailureCategory.unauthorized
  | ExnBranch.httpStatusOther _ => FailureCategory.protocolError
  | ExnBranch.networkBranch => FailureCategory.network
  | ExnBranch.telegramApiBranch => FailureCategory.protocolError
  | ExnBranch.unexpectedBranch => FailureCategory.unknown

/-- Modelled from the spec: the spec's ordered failure-classification
rules, first match wins — (1) explicit auth rejection (HTTP 401) is
Unauthorized, (2) transport/connectivity failure is Network, (3) any
other API-level error response is ProtocolError, (4) anything else is
Unknown. Stated from the spec's words to compare with the source's
except-clause chain. -/
def specClassify (e : TgExn) : FailureCategory :=
  if e = TgExn.httpStatusError 401 then FailureCategory.unauthorized
  else if e = TgExn.networkError then FailureCategory.network
  else if matchesHTTPStatusError e || matchesTelegramError e then FailureCategory.protocolError
  else FailureCategory.unknown

/-- What `send_telegram_message` did: the returned bool, whether the
network call (`bot.send_message`) was attempted, and which except branch
ran (if any). -/
structure SendOutcome where
  result : Bool
  attempted : Bool
  branch : Option ExnBranch
  deriving Repr, DecidableEq

/-- Client `telegram_utils.send_telegram_message`, parametrized by the outcome
`net` of the one network call: three guard clauses return `False` before
any network activity when a parameter is empty; otherwise the message is
sent, returning `True` on success, and each exception is handled by the
first matching except clause and `False` is returned. -/
def send_telegram_message (bot_token chat_id message : String) (net : NetOutcome) :
    SendOutcome :=
  if bot_token = "" then
    { result := false, attempted := false, branch := none }
  else if chat_id = "" then
    { result := false, attempted := false, branch := none }
  else if message = "" then
    { result := false, attempted := false, branch := none }
  else
    match net with
    | NetOutcome.success => { result := true, attempted := true, branch := none }
    | NetOutcome.raised e => { result := false, attempted := true, branch := some (handleExn e) }

/-! ### Concurrency model (`AiWorker` / `TelegramWorker` dispatch) -/

/-- A background operation kind. -/
inductive Op where
  | generating
  | posting
  deriving Repr, DecidableEq

/-- Application state: the UI plus the multiset (as a list) of worker
threads currently in flight. Nothing in the state type itself bounds the
list; boundedness is proved as an invariant of the reachable states. -/
structure AppState where
  ui : UIState
  inFlight : List Op
  deriving Repr, DecidableEq

/-- The events the main window reacts to: a click on either button
(possible only while the button is enabled) and the two worker
completion callbacks (possible only while such a worker is in flight). -/
inductive Event where
  | clickGenerate
  | clickPost (reply : Bool)
  | aiFinished (result : String)
  | tgFinished (success : Bool) (message : String)
  deriving Repr, DecidableEq

/-- Effect of a click on the generate button: run `generate_content`; a
dispatch adds a generating worker to the in-flight list. -/
def applyClickGenerate (s : AppState) : AppState :=
  let o := generate_content s.ui
  { ui := o.ui
    inFlight := if o.dispatched.isSome then Op.generating :: s.inFlight else s.inFlight }

/-- Effect of a click on the post button: run `post_content`; a dispatch
adds a posting worker to the in-flight list. -/
def applyClickPost (s : AppState) (reply : Bool) : AppState :=
  let o := post_content s.ui reply
  { ui := o.ui
    inFlight := if o.dispatched.isSome then Op.posting :: s.inFlight else s.inFlight }

/-- Effect of the `AiWorker.finished` callback: run
`on_ai_content_generated` and retire one generating worker. -/
def applyAiFinished (s : AppState) (result : String) : AppState :=
  { ui := (on_ai_content_generated s.ui result).ui
    inFlight := s.inFlight.erase Op.generating }

/-- Effect of the `TelegramWorker.finished` callback: run
`on_telegram_post_finished` and retire one posting worker. -/
def applyTgFinished (s : AppState) (success : Bool) (message : String) : AppState :=
  { ui := (on_telegram_post_finished s.ui success message).ui
    inFlight := s.inFlight.erase Op.posting }

/-- The transition relation. A click requires the button to be enabled
(a disabled Qt button emits no `clicked` signal); a completion callback
requires a worker of that kind to be in flight. -/
inductive Step : AppState → Event → AppState → Prop where
  | clickGenerate (s : AppState) (h : s.ui.generateEnabled = true) :
      Step s Event.clickGenerate (applyClickGenerate s)
  | clickPost (s : AppState) (reply : Bool) (h : s.ui.postEnabled = true) :
      Step s (Event.clickPost reply) (applyClickPost s reply)
  | aiFinished (s : AppState) (result : String) (h : Op.generating ∈ s.inFlight) :
      Step s (Event.aiFinished result) (applyAiFinished s result)
  | tgFinished (s : AppState) (success : Bool) (message : String)
      (h : Op.posting ∈ s.inFlight) :
      Step s (Event.tgFinished success message) (applyTgFinished s success message)

/-- Initial states: no worker in flight, both buttons enabled (as after
`initUI` and the startup `load_settings`). -/
def InitState (s : AppState) : Prop :=
  s.inFlight = [] ∧ s.ui.generateEnabled = true ∧ s.ui.postEnabled = true

/-- States reachable from an initial state by `Step` transitions. -/
inductive Reachable : AppState → Prop where
  | init (s : AppState) (h : InitState s) : Reachable s
  | step (s : AppState) (e : Event) (s' : AppState)
      (hr : Reachable s) (hs : Step s e s') : Reachable s'

/-! ### Named properties and concrete states used by the theorems -/

/-- Serial-dispatch invariant: at most one worker in flight, and while
one is in flight both trigger buttons are disabled. -/
def SerialDispatch (s : AppState) : Prop :=
  s.inFlight.length ≤ 1 ∧
  (s.inFlight ≠ [] → s.ui.generateEnabled = false ∧ s.ui.postEnabled = false)

/-- While a worker is in flight, the only possible events are the two
completion callbacks: no click (hence no second dispatch) can occur. -/
def NoSecondDispatch (s : AppState) : Prop :=
  ∀ e s', Step s e s' → s.inFlight ≠ [] →
    (∃ r, e = Event.aiFinished r) ∨ (∃ b m, e = Event.tgFinished b m)

/-- The publish-client contract of claim C3: the returned bool is true
exactly on a successful send, every raised exception is handled by the
except chain, the except chain realizes the ordered first-match
classification of the spec, the `NetworkError` clause wins over the
`TelegramError` clause that also matches, and the bad-token scenario
(service answers HTTP 401) lands in the Unauthorized branch. -/
def ClassifiedSend (bot_token chat_id message : String) (net : NetOutcome) : Prop :=
  ((send_telegram_message bot_token chat_id message net).result = true ↔
    net = NetOutcome.success) ∧
  (send_telegram_message bot_token chat_id message net).branch =
    (match net with
     | NetOutcome.success => none
     | NetOutcome.raised e => some (handleExn e)) ∧
  (∀ e, branchCategory (handleExn e) = specClassify e) ∧
  handleExn TgExn.networkError = ExnBranch.networkBranch ∧
  matchesTelegramError TgExn.networkError = true ∧
  (send_telegram_message "bad" "123" "hello"
    (NetOutcome.raised (TgExn.httpStatusError 401))).result = false ∧
  (send_telegram_message "bad" "123" "hello"
    (NetOutcome.raised (TgExn.httpStatusError 401))).branch =
      some ExnBranch.invalidToken401 ∧
  branchCategory ExnBranch.invalidToken401 = FailureCategory.unauthorized

/-- A fresh window state: blank fields, default model, both buttons
enabled, no dialog target set (the state after `initUI` with an empty
environment). -/
def baseUI : UIState :=
  { promptInput := ""
    contentPreview := ""
    aiApiKeyInput := ""
    telegramBotTokenInput := ""
    groupIdInput := ""
    aiModelCombo := DEFAULT_AI_MODEL
    statusLabel := "Ready."
    targetDisplay := none
    currentTab := 0
    generateEnabled := true
    postEnabled := true }

/-- Concrete state for the C1 witness: short content, configured target. -/
def C1ui : UIState :=
  { baseUI with contentPreview := "hello", groupIdInput := "g", telegramBotTokenInput := "t" }

/-- Concrete state for the C2 counterexample: a non-blank API key in the
UI while the environment is empty. -/
def C2ui : UIState :=
  { baseUI with aiApiKeyInput := "k" }

/-- Concrete state for the C4 witness: blank prompt. -/
def C4ui : UIState :=
  { baseUI with promptInput := " " }

/-- Concrete environment for the C5 counterexample: only `AI_MODEL` is
set. -/
def C5env : Env :=
  fun k => if k = "AI_MODEL" then some "gemini-pro" else none

/-! ### Helper lemmas -/

/-- Function `pyContains` decides contiguous-substring containment. -/
theorem pyContains_iff (needle hay : String) :
    pyContains needle hay = true ↔ ∃ s t, s ++ needle.data ++ t = hay.data := by
  unfold pyContains
  rw [decide_eq_true_eq]
  exact Iff.rfl

/-- Function `update_target_display` does not touch the settings-bearing fields. -/
theorem update_target_display_proj (st : UIState) :
    (update_target_display st).aiApiKeyInput = st.aiApiKeyInput ∧
    (update_target_display st).telegramBotTokenInput = st.telegramBotTokenInput ∧
    (update_target_display st).groupIdInput = st.groupIdInput ∧
    (update_target_display st).aiModelCombo = st.aiModelCombo := by
  simp only [update_target_display]
  split <;> exact ⟨rfl, rfl, rfl, rfl⟩

/-- Function `load_settings` unfolded to its two stages. -/
theorem load_settings_eq (env : Env) (st : UIState) :
    load_settings env st =
      update_target_display
        { st with
          aiApiKeyInput := getenv env "GEMINI_API_KEY" ""
          telegramBotTokenInput := getenv env "TELEGRAM_BOT_TOKEN" ""
          groupIdInput := getenv env "TELEGRAM_GROUP_ID" "" } := rfl

/-- Function `update_target_display` does not change the Settings projection. -/
theorem settingsOf_update_target (st : UIState) :
    settingsOf (update_target_display st) = settingsOf st := by
  simp only [settingsOf, update_target_display]
  split <;> rfl

/-- The state component of `save_settings` is just the display refresh. -/
theorem save_settings_fst (st : UIState) :
    (save_settings st).fst = update_target_display st := rfl

/-! ### Claims -/

/-- C1: for preview content C (after trimming), with the other publish
validations passing, a publish with `pyLen C > 4096` asks the yes/no
confirmation; answering Yes dispatches exactly the first 4096 characters
of C, answering No dispatches nothing and leaves the preview unchanged
(only the status line changes); with `pyLen C ≤ 4096` (including exactly
4096) no confirmation is asked and C is dispatched unmodified. -/
theorem C1_length_policy (st : UIState) (reply : Bool)
    (hc : pyStrip st.contentPreview ≠ "")
    (hg : pyStrip st.groupIdInput ≠ "")
    (hb : pyStrip st.telegramBotTokenInput ≠ "") :
    (pyLen (pyStrip st.contentPreview) > TELEGRAM_MAX_MESSAGE_LENGTH →
      (post_content st reply).confirmAsked = true ∧
      (reply = true →
        (post_content st reply).dispatched =
          some { botToken := pyStrip st.telegramBotTokenInput
                 chatId := pyStrip st.groupIdInput
                 message := pySlice (pyStrip st.contentPreview) TELEGRAM_MAX_MESSAGE_LENGTH } ∧
        (pySlice (pyStrip st.contentPreview) TELEGRAM_MAX_MESSAGE_LENGTH).data =
          (pyStrip st.contentPreview).data.take TELEGRAM_MAX_MESSAGE_LENGTH ∧
        pyLen (pySlice (pyStrip st.contentPreview) TELEGRAM_MAX_MESSAGE_LENGTH) =
          TELEGRAM_MAX_MESSAGE_LENGTH) ∧
      (reply = false →
        (post_content st reply).dispatched = none ∧
        (post_content st reply).ui.contentPreview = st.contentPreview ∧
        (post_content st reply).ui =
          { st with statusLabel := "Posting cancelled due to message length." })) ∧
    (pyLen (pyStrip st.contentPreview) ≤ TELEGRAM_MAX_MESSAGE_LENGTH →
      (post_content st reply).confirmAsked = false ∧
      (post_content st reply).dispatched =
        some { botToken := pyStrip st.telegramBotTokenInput
               chatId := pyStrip st.groupIdInput
               message := pyStrip st.contentPreview }) := by
  constructor
  · intro hlen
    have hlen' : ¬ pyLen (pyStrip st.contentPreview) ≤ TELEGRAM_MAX_MESSAGE_LENGTH :=
      Nat.not_le_of_lt hlen
    refine ⟨?_, ?_, ?_⟩
    · cases reply <;> simp [post_content, hc, hg, hb, hlen]
    · intro hr
      subst hr
      refine ⟨by simp [post_content, hc, hg, hb, hlen], rfl, ?_⟩
      show ((pyStrip st.contentPreview).data.take TELEGRAM_MAX_MESSAGE_LENGTH).length = _
      rw [List.length_take]
      exact Nat.min_eq_left (Nat.le_of_lt hlen)
    · intro hr
      subst hr
      exact ⟨by simp [post_content, hc, hg, hb, hlen],
             by simp [post_content, hc, hg, hb, hlen],
             by simp [post_content, hc, hg, hb, hlen]⟩
  · intro hlen
    have hlen' : ¬ pyLen (pyStrip st.contentPreview) > TELEGRAM_MAX_MESSAGE_LENGTH :=
      Nat.not_lt_of_le hlen
    exact ⟨by simp [post_content, hc, hg, hb, hlen'],
           by simp [post_content, hc, hg, hb, hlen']⟩

/-- C1 witness: with content `hello`, group `g`, token `t`, no
confirmation is asked and the content is dispatched unmodified. -/
theorem C1_witness :
    (post_content C1ui true).confirmAsked = false ∧
    (post_content C1ui true).dispatched =
      some { botToken := pyStrip C1ui.telegramBotTokenInput
             chatId := pyStrip C1ui.groupIdInput
             message := pyStrip C1ui.contentPreview } :=
  (C1_length_policy C1ui true (by decide) (by decide) (by decide)).2 (by decide)

/-- C2 counterexample: with an empty environment and the API key `k`
typed into the UI, save followed by load yields blank settings, not the
saved ones — `save_settings` persists nothing. -/
theorem C2_no_roundtrip :
    settingsOf (load_settings (fun _ => none) (save_settings C2ui).fst) ≠ settingsOf C2ui := by
  decide

/-- C2 amended: `save_settings` leaves the settings fields untouched and
writes to no store, so a subsequent `load_settings` yields the
environment values (with empty defaults) for the three credential fields
and the UI value for the model — the saved settings are recovered only
when they already coincide with the environment. -/
theorem C2_save_then_load (env : Env) (st : UIState) :
    settingsOf (load_settings env (save_settings st).fst) =
      { apiKey := getenv env "GEMINI_API_KEY" ""
        botToken := getenv env "TELEGRAM_BOT_TOKEN" ""
        channelId := getenv env "TELEGRAM_GROUP_ID" ""
        modelName := st.aiModelCombo } ∧
    settingsOf (save_settings st).fst = settingsOf st := by
  constructor
  · rw [load_settings_eq, settingsOf_update_target]
    show Settings.mk (getenv env "GEMINI_API_KEY" "") (getenv env "TELEGRAM_BOT_TOKEN" "")
      (getenv env "TELEGRAM_GROUP_ID" "") ((save_settings st).fst.aiModelCombo) = _
    rw [save_settings_fst, (update_target_display_proj st).2.2.2]
  · rw [save_settings_fst, settingsOf_update_target]

/-- C5 counterexample: with an environment that sets only `AI_MODEL`,
the startup load leaves the model selector at its UI value — the claim
that the load reads the `AI_MODEL` key is false. -/
theorem C5_model_key_not_read :
    (load_settings C5env baseUI).aiModelCombo ≠ getenv C5env "AI_MODEL" DEFAULT_AI_MODEL := by
  decide

/-- C5 amended: the startup load reads the three keys `GEMINI_API_KEY`,
`TELEGRAM_BOT_TOKEN`, `TELEGRAM_GROUP_ID`, each absent key defaulting to
the empty string, and a wholly missing configuration yields all-blank
credentials; the load never consults `AI_MODEL` and leaves the model
selector unchanged. -/
theorem C5_load_reads_three_keys (env : Env) (st : UIState) :
    (load_settings env st).aiApiKeyInput = getenv env "GEMINI_API_KEY" "" ∧
    (load_settings env st).telegramBotTokenInput = getenv env "TELEGRAM_BOT_TOKEN" "" ∧
    (load_settings env st).groupIdInput = getenv env "TELEGRAM_GROUP_ID" "" ∧
    (load_settings env st).aiModelCombo = st.aiModelCombo ∧
    ((∀ k, env k = none) →
      (load_settings env st).aiApiKeyInput = "" ∧
      (load_settings env st).telegramBotTokenInput = "" ∧
      (load_settings env st).groupIdInput = "") := by
  have h := update_target_display_proj
    { st with
      aiApiKeyInput := getenv env "GEMINI_API_KEY" ""
      telegramBotTokenInput := getenv env "TELEGRAM_BOT_TOKEN" ""
      groupIdInput := getenv env "TELEGRAM_GROUP_ID" "" }
  rw [load_settings_eq]
  refine ⟨h.1, h.2.1, h.2.2.1, h.2.2.2, fun hnone => ?_⟩
  refine ⟨h.1.trans ?_, h.2.1.trans ?_, h.2.2.1.trans ?_⟩ <;> simp [getenv, hnone]

/-- C6: the generation callback puts the result into the preview
unconditionally and pops the critical error dialog exactly when the
literal substring Error-colon occurs in the result — so valid content
containing that substring also triggers the dialog, as the concrete
instance shows. -/
theorem C6_error_substring (st : UIState) (r : String) :
    ((on_ai_content_generated st r).errorDialog.isSome = true ↔
      ∃ s t, s ++ "Error:".data ++ t = r.data) ∧
    (on_ai_content_generated st r).ui.contentPreview = r ∧
    (on_ai_content_generated st r).errorDialog =
      (if pyContains "Error:" r then some (Dialog.critical "AI Generation Error" r) else none) ∧
    (on_ai_content_generated baseUI "Great news! Error: rates fell.").errorDialog.isSome
      = true := by
  refine ⟨?_, ?_, ?_, ?_⟩
  · rw [← pyContains_iff]
    unfold on_ai_content_generated
    cases h : pyContains "Error:" r <;> simp [h]
  · unfold on_ai_content_generated
    split <;> rfl
  · unfold on_ai_content_generated
    cases h : pyContains "Error:" r <;> simp [h]
  · decide

/-- C3: the publish client returns true exactly on a successful send
acknowledgment; every raised exception is routed to the first matching
except clause, and that routing coincides with the ordered
classification rules (auth rejection, network, protocol error, unknown);
in particular a network error is categorized Network although the
`TelegramError` clause also matches it, and the bad-token scenario where
the service answers HTTP 401 yields the Unauthorized category. -/
theorem C3_publish_classification (bot_token chat_id message : String) (net : NetOutcome)
    (hb : bot_token ≠ "") (hc : chat_id ≠ "") (hm : message ≠ "") :
    ClassifiedSend bot_token chat_id message net := by
  refine ⟨?_, ?_, ?_, by decide, by decide, by decide, by decide, by decide⟩
  · cases net with
    | success => simp [send_telegram_message, hb, hc, hm]
    | raised e => simp [send_telegram_message, hb, hc, hm]
  · cases net with
    | success => simp [send_telegram_message, hb, hc, hm]
    | raised e => simp [send_telegram_message, hb, hc, hm]
  · intro e
    cases e with
    | httpStatusError s =>
        by_cases hs : s = 401
        · subst hs
          decide
        · simp [handleExn, handleHTTPStatusError, matchesHTTPStatusError,
                branchCategory, specClassify, hs]
    | networkError => decide
    | telegramError => decide
    | otherExn => decide

/-- C3 witness: the bad-token scenario with an auth-rejecting service. -/
theorem C3_witness :
    ClassifiedSend "bad" "123" "hello" (NetOutcome.raised (TgExn.httpStatusError 401)) :=
  C3_publish_classification "bad" "123" "hello" _ (by decide) (by decide) (by decide)

/-- C4: each local validation guard blocks dispatch — the outcome has no
worker request, the buttons, status and preview are untouched (only the
settings tab may be brought forward), and the warning message is
specific to the missing field; conversely, a dispatched request implies
all its guards were non-empty; the five messages are pairwise distinct
and each names its field. -/
theorem C4_local_validation (st : UIState) (reply : Bool) :
    (pyStrip st.promptInput = "" →
      (generate_content st).dispatched = none ∧
      (generate_content st).warningDialog =
        some (Dialog.warning "Input Error" "Please enter a prompt for the AI.") ∧
      (generate_content st).ui = st) ∧
    (pyStrip st.promptInput ≠ "" → pyStrip st.aiApiKeyInput = "" →
      (generate_content st).dispatched = none ∧
      (generate_content st).warningDialog =
        some (Dialog.warning "API Key Missing"
          "Please enter your Google Gemini API Key in the Settings tab.") ∧
      (generate_content st).ui = { st with currentTab := 1 }) ∧
    (pyStrip st.contentPreview = "" →
      (post_content st reply).dispatched = none ∧
      (post_content st reply).warningDialog =
        some (Dialog.warning "Input Error"
          "No content to post. Please generate or type content.") ∧
      (post_content st reply).ui = st) ∧
    (pyStrip st.contentPreview ≠ "" → pyStrip st.groupIdInput = "" →
      (post_content st reply).dispatched = none ∧
      (post_content st reply).warningDialog =
        some (Dialog.warning "Configuration Error"
          "Please enter the Telegram Group ID in the Settings tab.") ∧
      (post_content st reply).ui = { st with currentTab := 1 }) ∧
    (pyStrip st.contentPreview ≠ "" → pyStrip st.groupIdInput ≠ "" →
        pyStrip st.telegramBotTokenInput = "" →
      (post_content st reply).dispatched = none ∧
      (post_content st reply).warningDialog =
        some (Dialog.warning "Configuration Error"
          "Please enter your Telegram Bot Token in the Settings tab.") ∧
      (post_content st reply).ui = { st with currentTab := 1 }) ∧
    ((generate_content st).dispatched.isSome = true →
      pyStrip st.promptInput ≠ "" ∧ pyStrip st.aiApiKeyInput ≠ "") ∧
    ((post_content st reply).dispatched.isSome = true →
      pyStrip st.contentPreview ≠ "" ∧ pyStrip st.groupIdInput ≠ "" ∧
        pyStrip st.telegramBotTokenInput ≠ "") ∧
    (["Please enter a prompt for the AI.",
      "Please enter your Google Gemini API Key in the Settings tab.",
      "No content to post. Please generate or type content.",
      "Please enter the Telegram Group ID in the Settings tab.",
      "Please enter your Telegram Bot Token in the Settings tab."]).Nodup ∧
    pyContains "prompt" "Please enter a prompt for the AI." = true ∧
    pyContains "API Key" "Please enter your Google Gemini API Key in the Settings tab." = true ∧
    pyContains "content" "No content to post. Please generate or type content." = true ∧
    pyContains "Group ID" "Please enter the Telegram Group ID in the Settings tab." = true ∧
    pyContains "Bot Token" "Please enter your Telegram Bot Token in the Settings tab." = true := by
  refine ⟨?_, ?_, ?_, ?_, ?_, ?_, ?_, by decide, by decide, by decide, by decide,
          by decide, by decide⟩
  · intro h1
    simp [generate_content, h1]
  · intro h1 h2
    simp [generate_content, h1, h2]
  · intro h1
    simp [post_content, h1]
  · intro h1 h2
    simp [post_content, h1, h2]
  · intro h1 h2 h3
    simp [post_content, h1, h2, h3]
  · intro hd
    by_cases h1 : pyStrip st.promptInput = ""
    · simp [generate_content, h1] at hd
    · by_cases h2 : pyStrip st.aiApiKeyInput = ""
      · simp [generate_content, h1, h2] at hd
      · exact ⟨h1, h2⟩
  · intro hd
    by_cases h1 : pyStrip st.contentPreview = ""
    · simp [post_content, h1] at hd
    · by_cases h2 : pyStrip st.groupIdInput = ""
      · simp [post_content, h1, h2] at hd
      · by_cases h3 : pyStrip st.telegramBotTokenInput = ""
        · simp [post_content, h1, h2, h3] at hd
        · exact ⟨h1, h2, h3⟩

/-- C4 witness: a whitespace-only prompt is rejected with the prompt
message, no state change and no worker. -/
theorem C4_witness :
    (generate_content C4ui).dispatched = none ∧
    (generate_content C4ui).warningDialog =
      some (Dialog.warning "Input Error" "Please enter a prompt for the AI.") ∧
    (generate_content C4ui).ui = C4ui :=
  (C4_local_validation C4ui true).1 (by decide)

/-- C8: called with any empty parameter, the publish client returns
false without attempting the network call and without entering any
except branch. -/
theorem C8_fail_fast (bot_token chat_id message : String) (net : NetOutcome)
    (h : bot_token = "" ∨ chat_id = "" ∨ message = "") :
    (send_telegram_message bot_token chat_id message net).result = false ∧
    (send_telegram_message bot_token chat_id message net).attempted = false ∧
    (send_telegram_message bot_token chat_id message net).branch = none := by
  rcases h with h | h | h
  · simp [send_telegram_message, h]
  · by_cases h1 : bot_token = "" <;> simp [send_telegram_message, h, h1]
  · by_cases h1 : bot_token = "" <;> by_cases h2 : chat_id = "" <;>
      simp [send_telegram_message, h, h1, h2]

/-- C8 witness: empty bot token, even with a service that would accept
the send. -/
theorem C8_witness :
    (send_telegram_message "" "123" "hello" NetOutcome.success).result = false ∧
    (send_telegram_message "" "123" "hello" NetOutcome.success).attempted = false ∧
    (send_telegram_message "" "123" "hello" NetOutcome.success).branch = none :=
  C8_fail_fast "" "123" "hello" NetOutcome.success (Or.inl rfl)

/-- C9: on a successful publish the preview is cleared, the success
status and information dialog are surfaced, and both buttons are
re-enabled. -/
theorem C9_success_clears_preview (st : UIState) (message : String) :
    (on_telegram_post_finished st true message).ui.contentPreview = "" ∧
    (on_telegram_post_finished st true message).ui.statusLabel =
      "Content posted successfully!" ∧
    (on_telegram_post_finished st true message).dialog =
      Dialog.information "Success" message ∧
    (on_telegram_post_finished st true message).ui.generateEnabled = true ∧
    (on_telegram_post_finished st true message).ui.postEnabled = true := by
  refine ⟨rfl, rfl, rfl, rfl, rfl⟩

/-- C10: on a failed publish the preview is untouched and both buttons
are re-enabled, and a retry of the publish from the resulting state
dispatches exactly what a publish from the original state would. -/
theorem C10_failure_preserves_preview (st : UIState) (message : String) (reply : Bool) :
    (on_telegram_post_finished st false message).ui.contentPreview = st.contentPreview ∧
    (on_telegram_post_finished st false message).ui.generateEnabled = true ∧
    (on_telegram_post_finished st false message).ui.postEnabled = true ∧
    (on_telegram_post_finished st false message).ui.statusLabel =
      "Error posting: " ++ message ∧
    (post_content (on_telegram_post_finished st false message).ui reply).dispatched =
      (post_content st reply).dispatched := by
  refine ⟨rfl, rfl, rfl, rfl, ?_⟩
  by_cases h1 : pyStrip st.contentPreview = ""
  · simp [post_content, on_telegram_post_finished, h1]
  · by_cases h2 : pyStrip st.groupIdInput = ""
    · simp [post_content, on_telegram_post_finished, h1, h2]
    · by_cases h3 : pyStrip st.telegramBotTokenInput = ""
      · simp [post_content, on_telegram_post_finished, h1, h2, h3]
      · by_cases h4 : pyLen (pyStrip st.contentPreview) > TELEGRAM_MAX_MESSAGE_LENGTH
        · cases reply <;> simp [post_content, on_telegram_post_finished, h1, h2, h3, h4]
        · simp [post_content, on_telegram_post_finished, h1, h2, h3, h4]

/-- If `generate_content` dispatches a worker it disables both buttons;
otherwise it leaves both flags unchanged. -/
theorem generate_content_enabled (st : UIState) :
    ((generate_content st).dispatched.isSome = true →
      (generate_content st).ui.generateEnabled = false ∧
      (generate_content st).ui.postEnabled = false) ∧
    ((generate_content st).dispatched = none →
      (generate_content st).ui.generateEnabled = st.generateEnabled ∧
      (generate_content st).ui.postEnabled = st.postEnabled) := by
  by_cases h1 : pyStrip st.promptInput = ""
  · simp [generate_content, h1]
  · by_cases h2 : pyStrip st.aiApiKeyInput = "" <;> simp [generate_content, h1, h2]

/-- If `post_content` dispatches a worker it disables both buttons;
otherwise it leaves both flags unchanged. -/
theorem post_content_enabled (st : UIState) (reply : Bool) :
    ((post_content st reply).dispatched.isSome = true →
      (post_content st reply).ui.generateEnabled = false ∧
      (post_content st reply).ui.postEnabled = false) ∧
    ((post_content st reply).dispatched = none →
      (post_content st reply).ui.generateEnabled = st.generateEnabled ∧
      (post_content st reply).ui.postEnabled = st.postEnabled) := by
  by_cases h1 : pyStrip st.contentPreview = ""
  · simp [post_content, h1]
  · by_cases h2 : pyStrip st.groupIdInput = ""
    · simp [post_content, h1, h2]
    · by_cases h3 : pyStrip st.telegramBotTokenInput = ""
      · simp [post_content, h1, h2, h3]
      · by_cases h4 : pyLen (pyStrip st.contentPreview) > TELEGRAM_MAX_MESSAGE_LENGTH
        · cases reply <;> simp [post_content, h1, h2, h3, h4]
        · simp [post_content, h1, h2, h3, h4]

/-- One step preserves the serial-dispatch invariant. -/
theorem serialDispatch_step {s s' : AppState} {e : Event}
    (hg : SerialDispatch s) (hs : Step s e s') : SerialDispatch s' := by
  cases hs with
  | clickGenerate h =>
      have hemp : s.inFlight = [] := by
        by_contra hne
        rw [(hg.2 hne).1] at h
        exact Bool.noConfusion h
      cases hd : (generate_content s.ui).dispatched with
      | none =>
          refine ⟨by simp [applyClickGenerate, hd, hemp], fun hne => absurd ?_ hne⟩
          simp [applyClickGenerate, hd, hemp]
      | some r =>
          have hdis := (generate_content_enabled s.ui).1 (by simp [hd])
          refine ⟨by simp [applyClickGenerate, hd, hemp], fun _ => ?_⟩
          simpa [applyClickGenerate] using hdis
  | clickPost reply h =>
      have hemp : s.inFlight = [] := by
        by_contra hne
        rw [(hg.2 hne).2] at h
        exact Bool.noConfusion h
      cases hd : (post_content s.ui reply).dispatched with
      | none =>
          refine ⟨by simp [applyClickPost, hd, hemp], fun hne => absurd ?_ hne⟩
          simp [applyClickPost, hd, hemp]
      | some r =>
          have hdis := (post_content_enabled s.ui reply).1 (by simp [hd])
          refine ⟨by simp [applyClickPost, hd, hemp], fun _ => ?_⟩
          simpa [applyClickPost] using hdis
  | aiFinished result h =>
      have hone : s.inFlight.length = 1 :=
        Nat.le_antisymm hg.1 (List.length_pos.mpr (List.ne_nil_of_mem h))
      obtain ⟨a, ha⟩ := List.length_eq_one.mp hone
      have ha' : a = Op.generating := by
        rw [ha] at h
        exact (List.mem_singleton.mp h).symm
      subst ha'
      refine ⟨by simp [applyAiFinished, ha], fun hne => absurd ?_ hne⟩
      simp [applyAiFinished, ha]
  | tgFinished success message h =>
      have hone : s.inFlight.length = 1 :=
        Nat.le_antisymm hg.1 (List.length_pos.mpr (List.ne_nil_of_mem h))
      obtain ⟨a, ha⟩ := List.length_eq_one.mp hone
      have ha' : a = Op.posting := by
        rw [ha] at h
        exact (List.mem_singleton.mp h).symm
      subst ha'
      refine ⟨by simp [applyTgFinished, ha], fun hne => absurd ?_ hne⟩
      simp [applyTgFinished, ha]

/-- The serial-dispatch invariant holds in every reachable state. -/
theorem reachable_serialDispatch {s : AppState} (h : Reachable s) : SerialDispatch s := by
  induction h with
  | init s hi => exact ⟨by simp [hi.1], fun hne => absurd hi.1 hne⟩
  | step s e s' hr hs ih => exact serialDispatch_step ih hs

/-- C7: in every reachable state at most one worker is in flight, both
trigger buttons are disabled while one is, and from such a state the
only possible events are the completion callbacks — no second dispatch
can occur before the in-flight operation completes. -/
theorem C7_at_most_one_in_flight (s : AppState) (h : Reachable s) :
    SerialDispatch s ∧ NoSecondDispatch s := by
  have hsd := reachable_serialDispatch h
  refine ⟨hsd, fun e s' hstep hne => ?_⟩
  cases hstep with
  | clickGenerate hen =>
      rw [(hsd.2 hne).1] at hen
      exact Bool.noConfusion hen
  | clickPost reply hen =>
      rw [(hsd.2 hne).2] at hen
      exact Bool.noConfusion hen
  | aiFinished result hmem => exact Or.inl ⟨result, rfl⟩
  | tgFinished success message hmem => exact Or.inr ⟨success, message, rfl⟩

/-- C7 witness: the initial state. -/
theorem C7_witness :
    SerialDispatch { ui := baseUI, inFlight := [] } ∧
    NoSecondDispatch { ui := baseUI, inFlight := [] } :=
  C7_at_most_one_in_flight { ui := baseUI, inFlight := [] }
    (Reachable.init _ ⟨rfl, rfl, rfl⟩)

end TeleAIPoster
